import Mathlib

/-!
Verification of the receiver-side Payjoin v2 state machine
(`payjoin/src/receive/v2/mod.rs` and `payjoin/src/receive/v1/exclusive/error.rs`).

The development shallowly embeds the data model and the operations of the
receiver pipeline: bytes are `List Nat` (each < 256 where it matters), machine
words are `Nat` reduced mod 2^32, strings are Lean `String`/`List Char`,
fallible operations return `Option` or `Except`.  External collaborators that
the specification places out of scope (OHTTP encapsulation, HPKE seal/unseal,
the BIP-78 payload parser living outside the verified sources) are passed in as
explicit function parameters, so every theorem quantifies over their behavior.
-/

set_option maxRecDepth 8000

namespace Payjoin

/-! ### 32-bit word arithmetic used by SHA-256 -/

def w32 : Nat := 4294967296

def add32 (a b : Nat) : Nat := (a + b) % w32

def rotr32 (n x : Nat) : Nat := ((x >>> n) ||| (x <<< (32 - n))) % w32

def xor3 (a b c : Nat) : Nat := (a ^^^ b) ^^^ c

/-! ### SHA-256 (FIPS 180-4), over byte lists -/

def shaCh (e f g : Nat) : Nat := (e &&& f) ^^^ ((e ^^^ (w32 - 1)) &&& g)

def shaMaj (a b c : Nat) : Nat := xor3 (a &&& b) (a &&& c) (b &&& c)

def bigS0 (x : Nat) : Nat := xor3 (rotr32 2 x) (rotr32 13 x) (rotr32 22 x)

def bigS1 (x : Nat) : Nat := xor3 (rotr32 6 x) (rotr32 11 x) (rotr32 25 x)

def smallS0 (x : Nat) : Nat := xor3 (rotr32 7 x) (rotr32 18 x) (x >>> 3)

def smallS1 (x : Nat) : Nat := xor3 (rotr32 17 x) (rotr32 19 x) (x >>> 10)

def shaK : List Nat :=
  [1116352408, 1899447441, 3049323471, 3921009573,
   961987163, 1508970993, 2453635748, 2870763221,
   3624381080, 310598401, 607225278, 1426881987,
   1925078388, 2162078206, 2614888103, 3248222580,
   3835390401, 4022224774, 264347078, 604807628,
   770255983, 1249150122, 1555081692, 1996064986,
   2554220882, 2821834349, 2952996808, 3210313671,
   3336571891, 3584528711, 113926993, 338241895,
   666307205, 773529912, 1294757372, 1396182291,
   1695183700, 1986661051, 2177026350, 2456956037,
   2730485921, 2820302411, 3259730800, 3345764771,
   3516065817, 3600352804, 4094571909, 275423344,
   430227734, 506948616, 659060556, 883997877,
   958139571, 1322822218, 1537002063, 1747873779,
   1955562222, 2024104815, 2227730452, 2361852424,
   2428436474, 2756734187, 3204031479, 3329325298]

structure Hash8 where
  a : Nat
  b : Nat
  c : Nat
  d : Nat
  e : Nat
  f : Nat
  g : Nat
  h : Nat
deriving Repr, DecidableEq

def shaH0 : Hash8 :=
  ⟨1779033703, 3144134277, 1013904242, 2773480762,
   1359893119, 2600822924, 528734635, 1541459225⟩

def natToBytesBE : Nat → Nat → List Nat
  | 0, _ => []
  | k + 1, n => natToBytesBE k (n / 256) ++ [n % 256]

def bytesToWords : List Nat → List Nat
  | b0 :: b1 :: b2 :: b3 :: rest =>
      (((b0 * 256 + b1) * 256 + b2) * 256 + b3) :: bytesToWords rest
  | _ => []

def wordToBytes (w : Nat) : List Nat :=
  [w / 16777216 % 256, w / 65536 % 256, w / 256 % 256, w % 256]

/-- Pads a message to a multiple of 64 bytes: append 0x80, zeros, then the
bit length as a 64-bit big-endian integer. -/
def shaPad (msg : List Nat) : List Nat :=
  let l := msg.length
  let k := (64 + 55 - l % 64) % 64
  msg ++ [0x80] ++ List.replicate k 0 ++ natToBytesBE 8 (l * 8)

def toBlocks (l : List Nat) : List (List Nat) :=
  if l = [] then []
  else l.take 64 :: toBlocks (l.drop 64)
termination_by l.length
decreasing_by
  simp only [List.length_drop]
  rename_i h
  have : 0 < l.length := List.length_pos.mpr h
  omega

/-- Extends the 16-word block schedule by `n` further words. -/
def extendSchedule : Nat → List Nat → List Nat
  | 0, acc => acc
  | n + 1, acc =>
      let i := acc.length
      let w := (acc.getD (i - 16) 0 + smallS0 (acc.getD (i - 15) 0) +
                acc.getD (i - 7) 0 + smallS1 (acc.getD (i - 2) 0)) % w32
      extendSchedule n (acc ++ [w])

def shaRounds : List (Nat × Nat) → Hash8 → Hash8
  | [], st => st
  | (wi, ki) :: rest, st =>
      let t1 := (st.h + bigS1 st.e + shaCh st.e st.f st.g + ki + wi) % w32
      let t2 := (bigS0 st.a + shaMaj st.a st.b st.c) % w32
      shaRounds rest
        ⟨(t1 + t2) % w32, st.a, st.b, st.c, (st.d + t1) % w32, st.e, st.f, st.g⟩

def compressBlock (st : Hash8) (block : List Nat) : Hash8 :=
  let ws := extendSchedule 48 (bytesToWords block)
  let r := shaRounds (ws.zip shaK) st
  ⟨add32 st.a r.a, add32 st.b r.b, add32 st.c r.c, add32 st.d r.d,
   add32 st.e r.e, add32 st.f r.f, add32 st.g r.g, add32 st.h r.h⟩

/-- SHA-256 digest of a byte list, as a 32-byte list. -/
def sha256 (msg : List Nat) : List Nat :=
  let fin := (toBlocks (shaPad msg)).foldl compressBlock shaH0
  wordToBytes fin.a ++ wordToBytes fin.b ++ wordToBytes fin.c ++
  wordToBytes fin.d ++ wordToBytes fin.e ++ wordToBytes fin.f ++
  wordToBytes fin.g ++ wordToBytes fin.h

/-! ### Lower-case hex rendering -/

def hexDigit (n : Nat) : Char :=
  if n < 10 then Char.ofNat (48 + n) else Char.ofNat (87 + n)

def byteHex (b : Nat) : List Char := [hexDigit (b / 16), hexDigit (b % 16)]

def hexLower (l : List Nat) : String := String.mk ((l.map byteHex).flatten)

/-! ### Base64 (standard alphabet, with padding), as used by PSBT Display -/

def b64Alphabet : List Char :=
  "ABCDEFGHIJKLMNOPQRSTUVWXYZabcdefghijklmnopqrstuvwxyz0123456789+/".data

def b64Char (n : Nat) : Char := b64Alphabet.getD n (Char.ofNat 65)

def base64Chars : List Nat → List Char
  | b0 :: b1 :: b2 :: rest =>
      b64Char (b0 / 4) :: b64Char (b0 % 4 * 16 + b1 / 16) ::
      b64Char (b1 % 16 * 4 + b2 / 64) :: b64Char (b2 % 64) :: base64Chars rest
  | [b0, b1] =>
      [b64Char (b0 / 4), b64Char (b0 % 4 * 16 + b1 / 16),
       b64Char (b1 % 16 * 4), Char.ofNat 61]
  | [b0] => [b64Char (b0 / 4), b64Char (b0 % 4 * 16), Char.ofNat 61, Char.ofNat 61]
  | [] => []

def base64Encode (l : List Nat) : String := String.mk (base64Chars l)

/-! ### UTF-8 encoding and validation (mirrors `std::str::from_utf8`) -/

def utf8DecodeAux : List Nat → Option (List Char)
  | [] => some []
  | b :: rest =>
    if b < 128 then (utf8DecodeAux rest).map (fun cs => Char.ofNat b :: cs)
    else if b < 192 then none
    else if b < 224 then
      match rest with
      | b1 :: rest1 =>
        if 128 ≤ b1 ∧ b1 < 192 then
          let cp := (b - 192) * 64 + (b1 - 128)
          if cp < 128 then none
          else (utf8DecodeAux rest1).map (fun cs => Char.ofNat cp :: cs)
        else none
      | [] => none
    else if b < 240 then
      match rest with
      | b1 :: b2 :: rest2 =>
        if (128 ≤ b1 ∧ b1 < 192) ∧ 128 ≤ b2 ∧ b2 < 192 then
          let cp := (b - 224) * 4096 + (b1 - 128) * 64 + (b2 - 128)
          if cp < 2048 ∨ (55296 ≤ cp ∧ cp < 57344) then none
          else (utf8DecodeAux rest2).map (fun cs => Char.ofNat cp :: cs)
        else none
      | _ => none
    else if b < 248 then
      match rest with
      | b1 :: b2 :: b3 :: rest3 =>
        if (128 ≤ b1 ∧ b1 < 192) ∧ (128 ≤ b2 ∧ b2 < 192) ∧ 128 ≤ b3 ∧ b3 < 192 then
          let cp := (b - 240) * 262144 + (b1 - 128) * 4096 + (b2 - 128) * 64 + (b3 - 128)
          if cp < 65536 ∨ 1114112 ≤ cp then none
          else (utf8DecodeAux rest3).map (fun cs => Char.ofNat cp :: cs)
        else none
      | _ => none
    else none

/-- Decodes a byte list as UTF-8; `none` exactly when the bytes are not valid
UTF-8, in which case `std::str::from_utf8` errors. -/
def utf8Decode (l : List Nat) : Option String := (utf8DecodeAux l).map String.mk

def utf8EncodeChar (c : Char) : List Nat :=
  let n := c.toNat
  if n < 128 then [n]
  else if n < 2048 then [192 + n / 64, 128 + n % 64]
  else if n < 65536 then [224 + n / 4096, 128 + n / 64 % 64, 128 + n % 64]
  else [240 + n / 262144, 128 + n / 4096 % 64, 128 + n / 64 % 64, 128 + n % 64]

def utf8Encode (s : String) : List Nat := (s.data.map utf8EncodeChar).flatten

/-! ### URLs

The `url` crate (WHATWG URL standard) is an external collaborator; the session
code only uses absolute URLs with a scheme, an authority and a path, and joins
them with references of three restricted shapes: `"/"`, an absolute path
reference `"/..."`, and a relative single-segment reference.  The model below
captures exactly those join semantics; note that the standard leaves `:` `/`
`.` unescaped in paths, so no percent-encoding arises in these operations. -/

structure Url where
  scheme : List Char
  authority : List Char
  path : List Char
deriving Repr, DecidableEq

/-- Serialization of a URL, as `Display for url::Url` renders it. -/
def Url.render (u : Url) : List Char :=
  u.scheme ++ ':' :: '/' :: '/' :: u.authority ++ u.path

def Url.renderString (u : Url) : String := String.mk u.render

/-- Joining the reference `"/"` onto a base replaces the path by `/`
(this is `self.directory.join("/")`, keeping only scheme and authority). -/
def Url.joinRoot (u : Url) : Url := { u with path := ['/'] }

/-- Joining an absolute-path reference (a string starting with `/`) onto a
base keeps scheme and authority and replaces the whole path. -/
def Url.joinAbsPath (u : Url) (p : List Char) : Url := { u with path := '/' :: p }

/-- Joining a relative single-segment reference (no `/`, no `:`) onto a base
replaces the last path segment: everything after the final `/` is dropped and
the segment is appended. -/
def Url.joinRel (u : Url) (seg : List Char) : Url :=
  let kept := (u.path.reverse.dropWhile (fun c => c ≠ '/')).reverse
  { u with path := (if kept = [] then ['/'] else kept) ++ seg }

/-- Appending one path segment via `PathSegmentsMut::push`: a `/` separator is
added unless the path already ends with one. -/
def Url.pushSegment (u : Url) (seg : List Char) : Url :=
  let sep := if u.path = [] ∨ u.path.getLast? = some '/' then [] else ['/']
  { u with path := u.path ++ sep ++ seg }

/-! ### Core protocol data types -/

inductive Version where
  | One
  | Two
deriving Repr, DecidableEq

inductive OutputSubstitution where
  | Enabled
  | Disabled
deriving Repr, DecidableEq

/-- Parameters parsed from the query part of a sender payload.  Only the two
fields the verified code inspects are modelled; the remaining optional fields
are passed through the pipeline untouched. -/
structure Params where
  v : Version
  output_substitution : OutputSubstitution
deriving Repr, DecidableEq

def Script : Type := List Nat
deriving instance Repr, DecidableEq for Script

/-- Partially signed transaction (the `bitcoin` crate's `Psbt` is external):
modelled by its serialized bytes, `Psbt::serialize`.  `Display for Psbt`
renders those bytes in base64. -/
structure Psbt where
  serialized : List Nat
deriving Repr, DecidableEq

def Psbt.render (p : Psbt) : String := base64Encode p.serialized

/-- Bitcoin address (external type); modelled by its canonical string
rendering, which `Display` emits and `Address::from_str` parses back. -/
structure Address where
  render : String
deriving Repr, DecidableEq

def Address.fromStr (s : String) : Option Address := some ⟨s⟩

/-- Parsing with `assume_checked` keeps the parsed address as-is. -/
def Address.assumeChecked (a : Address) : Address := a

/-- OHTTP key configuration (external, opaque): modelled by its key-config
bytes. -/
structure OhttpKeys where
  config : List Nat
deriving Repr, DecidableEq

/-- HPKE public key (external): modelled by its 33-byte compressed encoding,
which `to_compressed_bytes` returns. -/
structure HpkePublicKey where
  compressed : List Nat
deriving Repr, DecidableEq

def HpkePublicKey.to_compressed_bytes (k : HpkePublicKey) : List Nat := k.compressed

structure HpkeSecretKey where
  bytes : List Nat
deriving Repr, DecidableEq

structure HpkeKeyPair where
  sec : HpkeSecretKey
  pubkey : HpkePublicKey
deriving Repr, DecidableEq

def HpkeKeyPair.public_key (k : HpkeKeyPair) : HpkePublicKey := k.pubkey

def HpkeKeyPair.secret_key (k : HpkeKeyPair) : HpkeSecretKey := k.sec

/-- Modelled from the spec: `ShortId` (defined in `crate::uri`, outside the
verified sources) is the 8-byte SHA-256 prefix addressing a session or sender
subdirectory, rendered in lower-case hex. -/
structure ShortId where
  bytes : List Nat
deriving Repr, DecidableEq

/-- Modelled from the spec: `From<sha256::Hash> for ShortId` truncates the
32-byte digest to its first 8 bytes. -/
def ShortId.ofHash (digest : List Nat) : ShortId := ⟨digest.take 8⟩

/-- Rendering of a `ShortId` (its `Display`), in lower-case hex. -/
def ShortId.render (s : ShortId) : String := hexLower s.bytes

/-! ### Session context (`SessionContext` in `receive/v2/mod.rs`)

Wall-clock instants (`SystemTime`) are modelled as `Nat` seconds; the ambient
clock `SystemTime::now()` becomes an explicit `now : Nat` argument of the
operations that consult it. -/

structure SessionContext where
  address : Address
  directory : Url
  subdirectory : Option Url
  ohttp_keys : OhttpKeys
  expiry : Nat
  s : HpkeKeyPair
  e : Option HpkePublicKey
deriving Repr, DecidableEq

/-- The per-session identifier (`SessionContext::id`):
`sha256::Hash::hash(&self.s.public_key().to_compressed_bytes()).into()`. -/
def SessionContext.id (ctx : SessionContext) : ShortId :=
  ShortId.ofHash (sha256 ctx.s.public_key.to_compressed_bytes)

/-- `subdir_path_from_pubkey`: the ShortId of an HPKE public key. -/
def subdir_path_from_pubkey (pubkey : HpkePublicKey) : ShortId :=
  ShortId.ofHash (sha256 pubkey.to_compressed_bytes)

/-- `SessionContext::full_relay_url`: reveal only scheme and authority of the
directory to the relay, appended to the relay URL as a path. -/
def full_relay_url (ctx : SessionContext) (ohttp_relay : Url) : Url :=
  let directory_base := ctx.directory.joinRoot
  ohttp_relay.joinAbsPath directory_base.render

/-- The subdirectory for this Payjoin receiver session (`subdir`): the
directory URL with the session ShortId pushed as a path segment. -/
def subdir (directory : Url) (id : ShortId) : Url :=
  directory.pushSegment id.render.data

/-! ### Errors (`receive/v1/exclusive/error.rs`, `receive/v2/error.rs`) -/

/-- Internal v1 request validation error.  The payload carried by `Io` and
`InvalidContentLength` is the `Display` rendering of the wrapped foreign error
(`std::io::Error`, `ParseIntError`), which is all the code ever reads. -/
inductive InternalRequestError where
  | Io (msg : String)
  | MissingHeader (header : String)
  | InvalidContentType (value : String)
  | InvalidContentLength (msg : String)
  | ContentLengthTooLarge (length : Nat)
deriving Repr, DecidableEq

/-- Public wrapper `RequestError(InternalRequestError)`. -/
structure RequestError where
  internal : InternalRequestError
deriving Repr, DecidableEq

/-- `Display for RequestError`. -/
def RequestError.display (e : RequestError) : String :=
  match e.internal with
  | .Io msg => msg
  | .MissingHeader header => "Missing header: " ++ header
  | .InvalidContentType value => "Invalid content type: " ++ value
  | .InvalidContentLength msg => msg
  | .ContentLengthTooLarge length => "Content length too large: " ++ toString length ++ "."

/-- Modelled from the spec: the error codes of `crate::error_codes`
(not under the verified sources) and their wire strings. -/
inductive ErrorCode where
  | OriginalPsbtRejected
  | Unavailable
  | NotEnoughMoney
  | VersionUnsupported
  | OriginalPsbtInvalid
deriving Repr, DecidableEq

def ErrorCode.code : ErrorCode → String
  | .OriginalPsbtRejected => "original-psbt-rejected"
  | .Unavailable => "unavailable"
  | .NotEnoughMoney => "not-enough-money"
  | .VersionUnsupported => "version-unsupported"
  | .OriginalPsbtInvalid => "original-psbt-invalid"

/-- Modelled from the spec: `JsonReply` (in `crate::receive`, outside the
verified sources) is the JSON reply object
`\x7b errorCode: <code>, message: <display> \x7d`; `JsonReply::new(code, e)`
fills it from an error code and an error's `Display` output. -/
structure JsonReply where
  errorCode : String
  message : String
deriving Repr, DecidableEq

def JsonReply.new (code : ErrorCode) (display : String) : JsonReply :=
  ⟨code.code, display⟩

/-- `From<&RequestError> for JsonReply` (the five-armed match in
`receive/v1/exclusive/error.rs`). -/
def JsonReply.ofRequestError (e : RequestError) : JsonReply :=
  match e.internal with
  | .Io _ => JsonReply.new .OriginalPsbtRejected e.display
  | .MissingHeader _ => JsonReply.new .OriginalPsbtRejected e.display
  | .InvalidContentType _ => JsonReply.new .OriginalPsbtRejected e.display
  | .InvalidContentLength _ => JsonReply.new .OriginalPsbtRejected e.display
  | .ContentLengthTooLarge _ => JsonReply.new .OriginalPsbtRejected e.display

/-- Modelled from the spec: `InternalPayloadError` (in `crate::receive`),
the payload-parse failures; only the `Utf8` case is named by the verified
sources, the rest are collapsed into `Other`. -/
inductive InternalPayloadError where
  | Utf8
  | Other (msg : String)
deriving Repr, DecidableEq

/-- Replyable error (`crate::receive::ReplyableError`): the sender is at
fault; formatted as JSON and returned through the directory. -/
inductive ReplyableError where
  | Payload (e : InternalPayloadError)
  | V1 (e : RequestError)
  | OutputSubstitution (msg : String)
  | InputContribution (msg : String)
  | Implementation (msg : String)
deriving Repr, DecidableEq

/-- Internal v2 session error (`receive/v2/error.rs`): the session itself is
broken.  External causes are carried as their numeric/‌display payloads. -/
inductive InternalSessionError where
  | Expired (expiry : Nat)
  | OhttpEncapsulation (msg : String)
  | DirectoryResponse (code : Nat)
  | ParseUrl (msg : String)
deriving Repr, DecidableEq

/-- Top-level v2 receive error (`crate::receive::Error`): either replyable to
the sender, a session error, or an HPKE failure (carried by its code). -/
inductive Error where
  | ReplyToSender (e : ReplyableError)
  | Session (e : InternalSessionError)
  | Hpke (code : Nat)
deriving Repr, DecidableEq

/-! ### The v1 typestate layer

The v1 pipeline states live in `receive/v1/mod.rs`, outside the verified
sources; the v2 wrapper only constructs, destructs and forwards them.  Each is
modelled as the proposal data it carries. -/

structure V1.UncheckedProposal where
  psbt : Psbt
  params : Params
deriving Repr, DecidableEq

structure V1.MaybeInputsOwned where
  psbt : Psbt
  params : Params
deriving Repr, DecidableEq

structure V1.MaybeInputsSeen where
  psbt : Psbt
  params : Params
deriving Repr, DecidableEq

structure V1.OutputsUnknown where
  psbt : Psbt
  params : Params
deriving Repr, DecidableEq

structure V1.WantsOutputs where
  psbt : Psbt
  params : Params
deriving Repr, DecidableEq

structure V1.WantsInputs where
  psbt : Psbt
  params : Params
deriving Repr, DecidableEq

structure V1.ProvisionalProposal where
  psbt : Psbt
  params : Params
deriving Repr, DecidableEq

structure V1.PayjoinProposal where
  psbt : Psbt
deriving Repr, DecidableEq

/-- Modelled from the spec: `v1::UncheckedProposal::check_broadcast_suitability`
verifies through the caller-supplied oracle that the Original PSBT, broadcast
alone, would confirm; an oracle failure becomes `Implementation`, a negative
answer a replyable payload rejection. -/
def V1.check_broadcast_suitability (p : V1.UncheckedProposal)
    (_min_fee_rate : Option Nat) (can_broadcast : Psbt → Except String Bool) :
    Except ReplyableError V1.MaybeInputsOwned :=
  match can_broadcast p.psbt with
  | .error msg => .error (.Implementation msg)
  | .ok false => .error (.Payload (.Other "original psbt cannot be broadcast"))
  | .ok true => .ok { psbt := p.psbt, params := p.params }

/-! ### The v2 receiver states (`receive/v2/mod.rs`)

`Receiver<State>` is a transparent wrapper (`Deref` to its single `state`
field), so states are embedded directly. -/

structure WithContext where
  context : SessionContext
deriving Repr, DecidableEq

structure UncheckedProposal where
  v1 : V1.UncheckedProposal
  context : SessionContext
deriving Repr, DecidableEq

structure MaybeInputsOwned where
  v1 : V1.MaybeInputsOwned
  context : SessionContext
deriving Repr, DecidableEq

structure MaybeInputsSeen where
  v1 : V1.MaybeInputsSeen
  context : SessionContext
deriving Repr, DecidableEq

structure OutputsUnknown where
  inner : V1.OutputsUnknown
  context : SessionContext
deriving Repr, DecidableEq

structure WantsOutputs where
  v1 : V1.WantsOutputs
  context : SessionContext
deriving Repr, DecidableEq

structure WantsInputs where
  v1 : V1.WantsInputs
  context : SessionContext
deriving Repr, DecidableEq

structure ProvisionalProposal where
  v1 : V1.ProvisionalProposal
  context : SessionContext
deriving Repr, DecidableEq

structure PayjoinProposal where
  v1 : V1.PayjoinProposal
  context : SessionContext
deriving Repr, DecidableEq

/-! ### String splitting helpers used by the payload parser -/

/-- `str::split_once`: splits at the first occurrence of the separator;
`none` when the separator does not occur. -/
def splitOnceChars (sep : Char) : List Char → Option (List Char × List Char)
  | [] => none
  | c :: rest =>
      if c = sep then some ([], rest)
      else (splitOnceChars sep rest).map (fun p => (c :: p.1, p.2))

def splitOnce (sep : Char) (s : String) : Option (String × String) :=
  (splitOnceChars sep s.data).map (fun p => (String.mk p.1, String.mk p.2))

def trimCharLeft (t : Char) : List Char → List Char
  | [] => []
  | c :: rest => if c = t then trimCharLeft t rest else c :: rest

/-- `str::trim_matches`: removes the character from both ends. -/
def trimChar (t : Char) (s : String) : String :=
  String.mk (((trimCharLeft t ((trimCharLeft t s.data).reverse)).reverse))

/-! ### Receiver<WithContext> operations

`parse_payload` (the BIP-78 payload parser in `crate::receive`, outside the
verified sources), OHTTP decapsulation and HPKE opening are passed in as
explicit function parameters; every theorem quantifies over them.

Operations that mutate `&mut self` return the updated state explicitly. -/

/-- `Receiver::<WithContext>::unchecked_from_payload`: split the payload at
the first newline, trim NUL padding from the query, parse, and force
`output_substitution = Disabled` whenever the parsed version is One. -/
def unchecked_from_payload
    (parse_payload : String → String → Except InternalPayloadError (Psbt × Params))
    (st : WithContext) (payload : String) :
    Except ReplyableError UncheckedProposal :=
  let split := (splitOnce '\n' payload).getD ("", "")
  let base64 := split.1
  let query := trimChar (Char.ofNat 0) split.2
  match parse_payload base64 query with
  | .error e => .error (.Payload e)
  | .ok (psbt, params) =>
      let params1 :=
        if params.v = Version.One
        then { params with output_substitution := OutputSubstitution.Disabled }
        else params
      .ok { v1 := { psbt := psbt, params := params1 }, context := st.context }

/-- `extract_proposal_from_v1`: delegates to `unchecked_from_payload`. -/
def extract_proposal_from_v1
    (parse_payload : String → String → Except InternalPayloadError (Psbt × Params))
    (st : WithContext) (response : String) :
    Except ReplyableError UncheckedProposal :=
  unchecked_from_payload parse_payload st response

/-- `extract_proposal_from_v2`: HPKE-open the body with `s.sec` (modelled by
the `decrypt_message_a` parameter), record the recovered sender key `e` in the
session context, then UTF-8 decode and parse.  The state update happens before
decode and parse, so it survives their failure. -/
def extract_proposal_from_v2
    (decrypt_message_a : List Nat → HpkeSecretKey → Except Nat (List Nat × HpkePublicKey))
    (parse_payload : String → String → Except InternalPayloadError (Psbt × Params))
    (st : WithContext) (response : List Nat) :
    WithContext × Except Error UncheckedProposal :=
  match decrypt_message_a response st.context.s.secret_key with
  | .error code => (st, .error (.Hpke code))
  | .ok (payload_bytes, e) =>
      let st1 : WithContext := { context := { st.context with e := some e } }
      match utf8Decode payload_bytes with
      | none => (st1, .error (.ReplyToSender (.Payload .Utf8)))
      | some payload =>
          (st1, (unchecked_from_payload parse_payload st1 payload).mapError .ReplyToSender)

/-- `Receiver::<WithContext>::process_res`: decapsulate the poll response
(`process_get_res`, modelled by the `decap` parameter closed over the OHTTP
client-response context); no payload keeps polling; a UTF-8 payload is a v1
plaintext; anything else is a v2 HPKE-sealed payload. -/
def process_res
    (decap : List Nat → Except Nat (Option (List Nat)))
    (decrypt_message_a : List Nat → HpkeSecretKey → Except Nat (List Nat × HpkePublicKey))
    (parse_payload : String → String → Except InternalPayloadError (Psbt × Params))
    (st : WithContext) (body : List Nat) :
    WithContext × Except Error (Option UncheckedProposal) :=
  match decap body with
  | .error code => (st, .error (.Session (.DirectoryResponse code)))
  | .ok none => (st, .ok none)
  | .ok (some b) =>
      match utf8Decode b with
      | some response =>
          (st, ((extract_proposal_from_v1 parse_payload st response).map some).mapError
                 .ReplyToSender)
      | none =>
          let r := extract_proposal_from_v2 decrypt_message_a parse_payload st b
          (r.1, r.2.map some)

/-- Request artifact handed to the caller: the inputs of the (opaque) OHTTP
encapsulation — method, target resource, body — plus the outer relay URL the
encapsulated bytes are posted to. -/
structure OhttpRequest where
  method : String
  target_resource : Url
  body : Option (List Nat)
  outer_url : Url
deriving Repr, DecidableEq

/-- `Receiver::<WithContext>::extract_req`: refuse with `Expired` past the
session expiry, otherwise an encapsulated GET of the session subdirectory,
addressed to the relay. -/
def WithContext.extract_req (st : WithContext) (now : Nat) (ohttp_relay : Url) :
    Except Error OhttpRequest :=
  if st.context.expiry < now then
    .error (.Session (.Expired st.context.expiry))
  else
    .ok { method := "GET"
        , target_resource := subdir st.context.directory st.context.id
        , body := none
        , outer_url := full_relay_url st.context ohttp_relay }

/-! ### The typestate guards

Each v2 guard delegates to its v1 counterpart (outside the verified sources,
hence a function parameter here) and re-wraps the result with the unchanged
session context.  None of them takes or consults a clock. -/

def UncheckedProposal.check_broadcast_suitability
    (v1_check : V1.UncheckedProposal → Option Nat → (Psbt → Except String Bool) →
      Except ReplyableError V1.MaybeInputsOwned)
    (p : UncheckedProposal) (min_fee_rate : Option Nat)
    (can_broadcast : Psbt → Except String Bool) :
    Except ReplyableError MaybeInputsOwned :=
  (v1_check p.v1 min_fee_rate can_broadcast).map
    (fun inner => { v1 := inner, context := p.context })

def UncheckedProposal.assume_interactive_receiver
    (v1_assume : V1.UncheckedProposal → V1.MaybeInputsOwned)
    (p : UncheckedProposal) : MaybeInputsOwned :=
  { v1 := v1_assume p.v1, context := p.context }

def MaybeInputsOwned.check_inputs_not_owned
    (v1_check : V1.MaybeInputsOwned → (Script → Except String Bool) →
      Except ReplyableError V1.MaybeInputsSeen)
    (p : MaybeInputsOwned) (is_owned : Script → Except String Bool) :
    Except ReplyableError MaybeInputsSeen :=
  (v1_check p.v1 is_owned).map (fun inner => { v1 := inner, context := p.context })

def MaybeInputsSeen.check_no_inputs_seen_before
    (v1_check : V1.MaybeInputsSeen → (List Nat → Except String Bool) →
      Except ReplyableError V1.OutputsUnknown)
    (p : MaybeInputsSeen) (is_known : List Nat → Except String Bool) :
    Except ReplyableError OutputsUnknown :=
  (v1_check p.v1 is_known).map (fun inner => { inner := inner, context := p.context })

def OutputsUnknown.identify_receiver_outputs
    (v1_identify : V1.OutputsUnknown → (Script → Except String Bool) →
      Except ReplyableError V1.WantsOutputs)
    (p : OutputsUnknown) (is_receiver_output : Script → Except String Bool) :
    Except ReplyableError WantsOutputs :=
  (v1_identify p.inner is_receiver_output).map
    (fun inner => { v1 := inner, context := p.context })

def ProvisionalProposal.finalize_proposal
    (v1_finalize : V1.ProvisionalProposal → (Psbt → Except String Psbt) →
      Option Nat → Option Nat → Except ReplyableError V1.PayjoinProposal)
    (p : ProvisionalProposal) (wallet_process_psbt : Psbt → Except String Psbt)
    (min_fee_rate : Option Nat) (max_effective_fee_rate : Option Nat) :
    Except ReplyableError PayjoinProposal :=
  (v1_finalize p.v1 wallet_process_psbt min_fee_rate max_effective_fee_rate).map
    (fun inner => { v1 := inner, context := p.context })

/-! ### Publishing the proposal -/

/-- `Receiver::<PayjoinProposal>::extract_req`: with a recorded sender key `e`
the proposal PSBT is HPKE-sealed (`encrypt_message_b`, modelled by the `seal`
parameter) and POSTed to the sender subdirectory `id(e)`; without one the PSBT
is PUT as base64 text to the receiver subdirectory `id(s.pub)`. -/
def PayjoinProposal.extract_req
    (encrypt_message_b : List Nat → HpkeKeyPair → HpkePublicKey → List Nat)
    (p : PayjoinProposal) (ohttp_relay : Url) : OhttpRequest :=
  match p.context.e with
  | some e =>
      let payjoin_bytes := p.v1.psbt.serialized
      let sender_subdir := subdir_path_from_pubkey e
      { method := "POST"
      , target_resource := p.context.directory.joinRel sender_subdir.render.data
      , body := some (encrypt_message_b payjoin_bytes p.context.s e)
      , outer_url := full_relay_url p.context ohttp_relay }
  | none =>
      let body := utf8Encode p.v1.psbt.render
      let receiver_subdir := subdir_path_from_pubkey p.context.s.public_key
      { method := "PUT"
      , target_resource := p.context.directory.joinRel receiver_subdir.render.data
      , body := some body
      , outer_url := full_relay_url p.context ohttp_relay }

/-! ### JSON serialization of the session (serde round trip)

`Receiver<WithContext>` derives `Serialize`/`Deserialize`; the JSON value
tree is modelled structurally.  Foreign types serialize as in their crates:
`Address` and `Url` as their canonical strings (the former re-parsed through
`deserialize_address_assume_checked`), byte-carrying keys as byte sequences,
`Option` as null-or-value. -/

inductive Json where
  | str (s : String)
  | num (n : Nat)
  | nul
  | arr (elems : List Json)
  | obj (fields : List (String × Json))

def bytesJson (l : List Nat) : Json := .arr (l.map .num)

def jsonBytesAux : List Json → Option (List Nat)
  | [] => some []
  | .num n :: rest => (jsonBytesAux rest).map (fun l => n :: l)
  | _ => none

def jsonBytes : Json → Option (List Nat)
  | .arr es => jsonBytesAux es
  | _ => none

/-- Parses a rendered URL: split at the first `://`, then split authority
from path at the first `/`. -/
def splitSchemeChars : List Char → Option (List Char × List Char)
  | [] => none
  | c :: rest =>
      if c = ':' ∧ rest.take 2 = ['/', '/'] then some ([], rest.drop 2)
      else (splitSchemeChars rest).map (fun p => (c :: p.1, p.2))

def notSlash (c : Char) : Bool := c ≠ '/'

def urlParse (l : List Char) : Option Url :=
  match splitSchemeChars l with
  | none => none
  | some (sch, rest) =>
      some ⟨sch, rest.takeWhile notSlash, rest.dropWhile notSlash⟩

/-- Well-formedness of a `Url` value: the invariants every value of the
`url` crate's (always-parsed, canonical) `Url` type enjoys. -/
def Url.Wf (u : Url) : Prop :=
  ':' ∉ u.scheme ∧ '/' ∉ u.authority ∧ (u.path = [] ∨ u.path.head? = some '/')

instance (u : Url) : Decidable u.Wf := by
  unfold Url.Wf; infer_instance

def jsonOptUrl : Json → Option (Option Url)
  | .nul => some none
  | .str s => (urlParse s.data).map some
  | _ => none

def jsonOptKey : Json → Option (Option HpkePublicKey)
  | .nul => some none
  | j => (jsonBytes j).map (fun b => some ⟨b⟩)

def serializeContext (ctx : SessionContext) : Json :=
  .obj [("address", .str ctx.address.render),
        ("directory", .str ctx.directory.renderString),
        ("subdirectory", match ctx.subdirectory with
                         | none => .nul
                         | some u => .str u.renderString),
        ("ohttp_keys", bytesJson ctx.ohttp_keys.config),
        ("expiry", .num ctx.expiry),
        ("s", .arr [bytesJson ctx.s.sec.bytes, bytesJson ctx.s.pubkey.compressed]),
        ("e", match ctx.e with
              | none => .nul
              | some k => bytesJson k.compressed)]

def deserializeContext (j : Json) : Option SessionContext :=
  match j with
  | .obj [("address", .str a), ("directory", .str d), ("subdirectory", subJ),
          ("ohttp_keys", okJ), ("expiry", .num exp), ("s", .arr [skJ, pkJ]),
          ("e", eJ)] => do
      let addr ← Address.fromStr a
      let dir ← urlParse d.data
      let sub ← jsonOptUrl subJ
      let okeys ← jsonBytes okJ
      let sk ← jsonBytes skJ
      let pk ← jsonBytes pkJ
      let e ← jsonOptKey eJ
      some { address := addr.assumeChecked, directory := dir, subdirectory := sub,
             ohttp_keys := ⟨okeys⟩, expiry := exp, s := ⟨⟨sk⟩, ⟨pk⟩⟩, e := e }
  | _ => none

def serializeReceiver (st : WithContext) : Json :=
  .obj [("state", .obj [("context", serializeContext st.context)])]

def deserializeReceiver (j : Json) : Option WithContext :=
  match j with
  | .obj [("state", .obj [("context", cj)])] =>
      (deserializeContext cj).map (fun c => ⟨c⟩)
  | _ => none

/-! ### Generic helper lemmas and concrete fixtures -/

def isOkE : Except ε α → Bool
  | .ok _ => true
  | .error _ => false

theorem isOkE_map (x : Except ε α) (f : α → β) : isOkE (x.map f) = isOkE x := by
  cases x <;> rfl

theorem mapError_ok_iff {x : Except ε α} {f : ε → ε2} {a : α} :
    x.mapError f = .ok a ↔ x = .ok a := by
  cases x <;> simp [Except.mapError]

theorem map_eq_ok {x : Except ε α} {f : α → β} {b : β} (h : x.map f = .ok b) :
    ∃ a, x = .ok a ∧ f a = b := by
  cases x with
  | error e => simp [Except.map] at h
  | ok a => exact ⟨a, rfl, by simpa [Except.map] using h⟩

/-- A contiguous subsequence test for character lists. -/
def containsSeq (needle : List Char) : List Char → Bool
  | [] => needle.isEmpty
  | c :: rest => (needle.isPrefixOf (c :: rest)) || containsSeq needle rest

def pk0 : HpkePublicKey := ⟨List.replicate 33 2⟩

def kp0 : HpkeKeyPair := ⟨⟨List.replicate 32 1⟩, pk0⟩

def url0 : Url := ⟨"https".data, "directory.example".data, ['/']⟩

def relay0 : Url := ⟨"https".data, "relay.example".data, ['/']⟩

def ctx0 : SessionContext :=
  { address := ⟨"tb1qexampleaddress"⟩, directory := url0, subdirectory := none
  , ohttp_keys := ⟨[3, 1, 4]⟩, expiry := 100, s := kp0, e := none }

def st0 : WithContext := ⟨ctx0⟩

def psbt0 : Psbt := ⟨[]⟩

def params0 : Params := ⟨Version.Two, OutputSubstitution.Enabled⟩

/-- Payload parser that declares v1 and substitution enabled, whatever the
input: the adversarial sender of the C1 scenario. -/
def parseConstOne : String → String → Except InternalPayloadError (Psbt × Params) :=
  fun _ _ => .ok (⟨[]⟩, ⟨Version.One, OutputSubstitution.Enabled⟩)

/-- Payload parser that records the base64 component it was handed inside the
produced PSBT, making the split observable. -/
def parseEcho : String → String → Except InternalPayloadError (Psbt × Params) :=
  fun base64 _ => .ok (⟨utf8Encode base64⟩, params0)

/-! ## C8 — every `RequestError` maps to an `original-psbt-rejected` JSON reply -/

/-- C8: for every RequestError variant (Io, MissingHeader, InvalidContentType,
InvalidContentLength, ContentLengthTooLarge), the JsonReply conversion yields
errorCode "original-psbt-rejected" and a message equal to the error's Display
output. -/
theorem C8_request_error_reply (e : RequestError) :
    (JsonReply.ofRequestError e).errorCode = "original-psbt-rejected" ∧
    (JsonReply.ofRequestError e).message = e.display := by
  obtain ⟨i⟩ := e
  cases i <;> exact ⟨rfl, rfl⟩

/-! ## C5 — the session identifier -/

/-- C5: for every SessionContext, `id` is the first 8 bytes of the SHA-256
digest of the compressed encoding of `s.public_key()`, rendered in lower-hex,
and it depends on nothing but the keypair `s` — so repeated calls on the same
(or an otherwise-mutated) context always agree. -/
theorem C5_session_id (ctx ctx2 : SessionContext) (hs : ctx.s = ctx2.s) :
    ctx.id = ShortId.ofHash (sha256 ctx.s.public_key.to_compressed_bytes) ∧
    ctx.id.render = hexLower ((sha256 ctx.s.public_key.to_compressed_bytes).take 8) ∧
    ctx.id = ctx2.id := by
  refine ⟨rfl, rfl, ?_⟩
  unfold SessionContext.id
  rw [hs]

/-- Witness for C5 at two concrete contexts sharing the keypair but differing
in expiry. -/
theorem C5_session_id_witness :
    ctx0.id = ShortId.ofHash (sha256 ctx0.s.public_key.to_compressed_bytes) ∧
    ctx0.id.render = hexLower ((sha256 ctx0.s.public_key.to_compressed_bytes).take 8) ∧
    ctx0.id = SessionContext.id { ctx0 with expiry := 5 } :=
  C5_session_id ctx0 { ctx0 with expiry := 5 } rfl

/-! ## C4 — publishing the proposal: target, method and body -/

/-- C4: `Receiver<PayjoinProposal>::extract_req` POSTs the HPKE-sealed
serialized PSBT to `directory / id8(e)` when the session context holds a
sender key `e`, and PUTs the PSBT as base64 text to `directory / id8(s.pub)`
when it does not. -/
theorem C4_proposal_request (encrypt_message_b : List Nat → HpkeKeyPair → HpkePublicKey → List Nat)
    (p : PayjoinProposal) (relay : Url) (e : HpkePublicKey) :
    (p.context.e = some e →
      PayjoinProposal.extract_req encrypt_message_b p relay =
        { method := "POST"
        , target_resource :=
            p.context.directory.joinRel (subdir_path_from_pubkey e).render.data
        , body := some (encrypt_message_b p.v1.psbt.serialized p.context.s e)
        , outer_url := full_relay_url p.context relay }) ∧
    (p.context.e = none →
      PayjoinProposal.extract_req encrypt_message_b p relay =
        { method := "PUT"
        , target_resource :=
            p.context.directory.joinRel
              (subdir_path_from_pubkey p.context.s.public_key).render.data
        , body := some (utf8Encode p.v1.psbt.render)
        , outer_url := full_relay_url p.context relay }) := by
  constructor <;> intro h <;> unfold PayjoinProposal.extract_req <;> rw [h]

/-- Witness for C4: one session with the sender key recorded, one without. -/
theorem C4_proposal_request_witness :
    PayjoinProposal.extract_req (fun b _ _ => 0 :: b)
        { v1 := ⟨psbt0⟩, context := { ctx0 with e := some pk0 } } relay0 =
      { method := "POST"
      , target_resource :=
          SessionContext.directory { ctx0 with e := some pk0 } |>.joinRel
            (subdir_path_from_pubkey pk0).render.data
      , body := some (0 :: psbt0.serialized)
      , outer_url := full_relay_url { ctx0 with e := some pk0 } relay0 } ∧
    PayjoinProposal.extract_req (fun b _ _ => 0 :: b)
        { v1 := ⟨psbt0⟩, context := ctx0 } relay0 =
      { method := "PUT"
      , target_resource :=
          ctx0.directory.joinRel (subdir_path_from_pubkey ctx0.s.public_key).render.data
      , body := some (utf8Encode psbt0.render)
      , outer_url := full_relay_url ctx0 relay0 } :=
  ⟨(C4_proposal_request (fun b _ _ => 0 :: b)
      { v1 := ⟨psbt0⟩, context := { ctx0 with e := some pk0 } } relay0 pk0).1 rfl,
   (C4_proposal_request (fun b _ _ => 0 :: b)
      { v1 := ⟨psbt0⟩, context := ctx0 } relay0 pk0).2 rfl⟩

/-! ## C7 — the relay URL construction -/

def dirWithPath : Url := ⟨"https".data, "dir.example".data, "/foo/bar".data⟩

def ctxDir : SessionContext := { ctx0 with directory := dirWithPath }

/-- Counterexample for C7: with directory `https://dir.example/foo/bar`, the
constructed path is `/https://dir.example/` — the directory's own path
(`foo`, `bar`) is stripped rather than embedded, and the embedded
serialization spans several raw path segments (unencoded slashes remain after
the leading one), so it is not a single URL-encoded path segment. -/
theorem C7_counterexample :
    (full_relay_url ctxDir relay0).path = "/https://dir.example/".data ∧
    containsSeq "foo".data (full_relay_url ctxDir relay0).path = false ∧
    '/' ∈ (full_relay_url ctxDir relay0).path.drop 1 := by
  refine ⟨rfl, by decide, by decide⟩

/-- C7 (amended): the result keeps the relay's scheme and authority; its path
is `/` followed by the directory's scheme and authority with the directory's
own path reset to `/` — appended verbatim, slashes unencoded. -/
theorem C7_relay_url_amended (ctx : SessionContext) (relay : Url) :
    full_relay_url ctx relay =
      ⟨relay.scheme, relay.authority,
       '/' :: (ctx.directory.scheme ++ ':' :: '/' :: '/' :: ctx.directory.authority ++ ['/'])⟩ :=
  rfl

/-! ## C1 — v1 versions inside a v2 session force output substitution off -/

theorem unchecked_ok_v1_disabled
    (parse : String → String → Except InternalPayloadError (Psbt × Params))
    (st : WithContext) (payload : String) (prop : UncheckedProposal)
    (h : unchecked_from_payload parse st payload = .ok prop)
    (hv : prop.v1.params.v = Version.One) :
    prop.v1.params.output_substitution = OutputSubstitution.Disabled := by
  simp only [unchecked_from_payload] at h
  split at h
  · exact absurd h (by simp)
  · rename_i psbt params heq
    rw [Except.ok.injEq] at h
    subst h
    by_cases hone : params.v = Version.One
    · simp [hone]
    · simp only [if_neg hone] at hv
      exact absurd hv hone

/-- C1: whenever `process_res` accepts a payload in a v2 session and the
parsed `params.v` is `One`, the resulting UncheckedProposal carries
`output_substitution = Disabled`, irrespective of what the payload's query
declared (the theorem quantifies over the payload parser, so over every
declarable value). -/
theorem C1_v1_in_v2_disables_substitution
    (decap : List Nat → Except Nat (Option (List Nat)))
    (decrypt : List Nat → HpkeSecretKey → Except Nat (List Nat × HpkePublicKey))
    (parse : String → String → Except InternalPayloadError (Psbt × Params))
    (st st1 : WithContext) (body : List Nat) (prop : UncheckedProposal)
    (h : process_res decap decrypt parse st body = (st1, .ok (some prop)))
    (hv : prop.v1.params.v = Version.One) :
    prop.v1.params.output_substitution = OutputSubstitution.Disabled := by
  unfold process_res at h
  split at h
  · simp at h
  · simp at h
  · rename_i b heq
    cases hu : utf8Decode b with
    | some response =>
        rw [hu] at h
        rw [Prod.mk.injEq] at h
        obtain ⟨-, h2⟩ := h
        rw [mapError_ok_iff] at h2
        obtain ⟨a, ha, hfa⟩ := map_eq_ok h2
        injection hfa with hinj
        subst hinj
        exact unchecked_ok_v1_disabled parse st response _ ha hv
    | none =>
        rw [hu] at h
        rw [Prod.mk.injEq] at h
        obtain ⟨-, h2⟩ := h
        obtain ⟨a, ha, hfa⟩ := map_eq_ok h2
        injection hfa with hinj
        subst hinj
        unfold extract_proposal_from_v2 at ha
        split at ha
        · simp at ha
        · rename_i pb e2 hdec
          split at ha
          · simp at ha
          · rename_i payload hpl
            rw [mapError_ok_iff] at ha
            exact unchecked_ok_v1_disabled parse _ payload _ ha hv

def propC1 : UncheckedProposal :=
  { v1 := { psbt := ⟨[]⟩, params := ⟨Version.One, OutputSubstitution.Disabled⟩ }
  , context := ctx0 }

/-- Witness for C1: a sender declaring v1 with substitution enabled; the
accepted proposal has substitution disabled. -/
theorem C1_witness :
    process_res (fun _ => .ok (some [65])) (fun _ _ => .error 0) parseConstOne st0 [9] =
      (st0, .ok (some propC1)) ∧
    propC1.v1.params.v = Version.One ∧
    propC1.v1.params.output_substitution = OutputSubstitution.Disabled :=
  ⟨rfl, rfl,
   C1_v1_in_v2_disables_substitution (fun _ => .ok (some [65])) (fun _ _ => .error 0)
     parseConstOne st0 st0 [9] propC1 rfl rfl⟩

/-! ## C6 — payloads without a newline -/

theorem splitOnceChars_eq_none (sep : Char) (l : List Char) (h : sep ∉ l) :
    splitOnceChars sep l = none := by
  induction l with
  | nil => rfl
  | cons c rest ih =>
      have hc : ¬ c = sep := fun e => h (e ▸ List.mem_cons_self c rest)
      have hr := ih (fun m => h (List.mem_cons_of_mem c m))
      simp [splitOnceChars, hc, hr]

/-- Counterexample for C6: for the newline-free payload "cHNidP8" the parser
is handed an empty base64 component (observed through a parser that echoes its
base64 argument into the produced PSBT), not the whole payload — whose UTF-8
bytes are nonempty. -/
theorem C6_counterexample :
    unchecked_from_payload parseEcho st0 "cHNidP8" =
      .ok { v1 := { psbt := ⟨[]⟩, params := params0 }, context := ctx0 } ∧
    utf8Encode "cHNidP8" ≠ [] :=
  ⟨rfl, by decide⟩

/-- C6 (amended): a payload with no newline character is treated as the empty
split — base64 body AND query both empty, the whole payload discarded —
because `split_once` returns `None` and `unwrap_or_default` yields a pair of
empty strings. -/
theorem C6_no_newline_discards_payload
    (parse : String → String → Except InternalPayloadError (Psbt × Params))
    (st : WithContext) (payload : String) (h : '\n' ∉ payload.data) :
    unchecked_from_payload parse st payload = unchecked_from_payload parse st "" := by
  unfold unchecked_from_payload splitOnce
  rw [splitOnceChars_eq_none _ _ h]
  rfl

/-- Witness for C6 (amended) at the concrete payload "cHNidP8". -/
theorem C6_witness :
    '\n' ∉ "cHNidP8".data ∧
    unchecked_from_payload parseConstOne st0 "cHNidP8" =
      unchecked_from_payload parseConstOne st0 "" :=
  ⟨by decide, C6_no_newline_discards_payload parseConstOne st0 "cHNidP8" (by decide)⟩

/-! ## C10 — the sender key survives a failed decode or parse -/

/-- C10: when the HPKE open succeeds on a v2 (non-UTF-8) payload, the
recovered sender key `e` is stored in the session context of the state
`process_res` returns, whether or not the subsequent decode/parse succeeded;
no pre-call state is restored on error. -/
theorem C10_e_recorded_despite_error
    (decap : List Nat → Except Nat (Option (List Nat)))
    (decrypt : List Nat → HpkeSecretKey → Except Nat (List Nat × HpkePublicKey))
    (parse : String → String → Except InternalPayloadError (Psbt × Params))
    (st : WithContext) (body b payload_bytes : List Nat) (e : HpkePublicKey)
    (hd : decap body = .ok (some b))
    (hu : utf8Decode b = none)
    (hdec : decrypt b st.context.s.secret_key = .ok (payload_bytes, e)) :
    (process_res decap decrypt parse st body).1.context.e = some e := by
  unfold process_res
  simp only [hd, hu]
  unfold extract_proposal_from_v2
  simp only [hdec]
  cases utf8Decode payload_bytes <;> simp

/-- Witness for C10: the opened payload `[255]` is not valid UTF-8, an error
is returned, yet the returned state has `e` set. -/
theorem C10_witness :
    (fun (_ : List Nat) => (.ok (some [255]) : Except Nat (Option (List Nat)))) [9] =
      .ok (some [255]) ∧
    utf8Decode [255] = none ∧
    (process_res (fun _ => .ok (some [255])) (fun _ _ => .ok ([255], pk0)) parseConstOne
        st0 [9]).1.context.e = some pk0 :=
  ⟨rfl, by decide,
   C10_e_recorded_despite_error (fun _ => .ok (some [255])) (fun _ _ => .ok ([255], pk0))
     parseConstOne st0 [9] [255] [255] pk0 rfl (by decide) rfl⟩

/-! ## C3 — the three branches of `process_res` -/

/-- C3: a decapsulated `None` payload keeps polling (`Ok(None)`, state
untouched); a UTF-8 payload is handled by the v1 plaintext path (state
untouched); any other payload is handled by the v2 path, which opens it with
the receiver secret key `s.sec` and records the recovered sender key `e` in
the session context before the decrypted payload is parsed. -/
theorem C3_process_res_branches
    (decap : List Nat → Except Nat (Option (List Nat)))
    (decrypt : List Nat → HpkeSecretKey → Except Nat (List Nat × HpkePublicKey))
    (parse : String → String → Except InternalPayloadError (Psbt × Params))
    (st : WithContext) (b1 b2 b3 p2 p3 : List Nat) (s2 : String)
    (h1 : decap b1 = .ok none)
    (h2 : decap b2 = .ok (some p2)) (hu2 : utf8Decode p2 = some s2)
    (h3 : decap b3 = .ok (some p3)) (hu3 : utf8Decode p3 = none) :
    process_res decap decrypt parse st b1 = (st, .ok none) ∧
    process_res decap decrypt parse st b2 =
      (st, ((extract_proposal_from_v1 parse st s2).map some).mapError .ReplyToSender) ∧
    process_res decap decrypt parse st b3 =
      ((extract_proposal_from_v2 decrypt parse st p3).1,
       (extract_proposal_from_v2 decrypt parse st p3).2.map some) ∧
    (∀ pb e, decrypt p3 st.context.s.secret_key = .ok (pb, e) →
       (extract_proposal_from_v2 decrypt parse st p3).1.context.e = some e) := by
  refine ⟨?_, ?_, ?_, ?_⟩
  · unfold process_res; simp only [h1]
  · unfold process_res; simp only [h2, hu2]
  · unfold process_res; simp only [h3, hu3]
  · intro pb e hdec
    unfold extract_proposal_from_v2
    simp only [hdec]
    cases utf8Decode pb <;> simp

def decapC3 : List Nat → Except Nat (Option (List Nat)) :=
  fun b => if b = [1] then .ok none else if b = [2] then .ok (some [65]) else .ok (some [255])

/-- Witness for C3 with three concrete poll responses: accepted-no-payload,
a UTF-8 (v1) payload "A", and a binary (v2) payload `[255]`. -/
theorem C3_witness :
    process_res decapC3 (fun _ _ => .ok ([70], pk0)) parseConstOne st0 [1] =
      (st0, .ok none) ∧
    process_res decapC3 (fun _ _ => .ok ([70], pk0)) parseConstOne st0 [2] =
      (st0, ((extract_proposal_from_v1 parseConstOne st0 "A").map some).mapError
              .ReplyToSender) ∧
    process_res decapC3 (fun _ _ => .ok ([70], pk0)) parseConstOne st0 [3] =
      ((extract_proposal_from_v2 (fun _ _ => .ok ([70], pk0)) parseConstOne st0 [255]).1,
       (extract_proposal_from_v2 (fun _ _ => .ok ([70], pk0)) parseConstOne st0 [255]).2.map
         some) ∧
    (∀ pb e, (fun (_ : List Nat) (_ : HpkeSecretKey) =>
        (.ok ([70], pk0) : Except Nat (List Nat × HpkePublicKey))) [255]
          st0.context.s.secret_key = .ok (pb, e) →
       (extract_proposal_from_v2 (fun _ _ => .ok ([70], pk0)) parseConstOne
          st0 [255]).1.context.e = some e) :=
  C3_process_res_branches decapC3 (fun _ _ => .ok ([70], pk0)) parseConstOne st0
    [1] [2] [3] [65] [255] "A" rfl rfl (by decide) rfl (by decide)

/-! ## C2 — which operations check the session expiry -/

def expiredCtx : SessionContext := { ctx0 with expiry := 1 }

/-- Counterexample for C2: with the wall clock at `now = 2`, strictly past the
session expiry `1`, `check_broadcast_suitability` succeeds (the guard neither
takes nor consults a clock), instead of failing with `Expired` as the claim
demands of every guard. -/
theorem C2_counterexample :
    expiredCtx.expiry < 2 ∧
    UncheckedProposal.check_broadcast_suitability V1.check_broadcast_suitability
        { v1 := ⟨psbt0, params0⟩, context := expiredCtx } none (fun _ => .ok true) =
      .ok { v1 := ⟨psbt0, params0⟩, context := expiredCtx } :=
  ⟨by decide, rfl⟩

/-- C2 (amended): only `Receiver<WithContext>::extract_req` checks expiry and
fails with `Expired` when `now > expiry`; the typestate guards never consult
the expiry — changing it does not affect whether any of them succeeds
(stated for every v1-layer implementation, every proposal and every oracle). -/
theorem C2_expiry_amended
    (st : WithContext) (now : Nat) (relay : Url)
    (hexp : st.context.expiry < now)
    (v1broadcast : V1.UncheckedProposal → Option Nat → (Psbt → Except String Bool) →
      Except ReplyableError V1.MaybeInputsOwned)
    (v1owned : V1.MaybeInputsOwned → (Script → Except String Bool) →
      Except ReplyableError V1.MaybeInputsSeen)
    (v1seen : V1.MaybeInputsSeen → (List Nat → Except String Bool) →
      Except ReplyableError V1.OutputsUnknown)
    (v1outputs : V1.OutputsUnknown → (Script → Except String Bool) →
      Except ReplyableError V1.WantsOutputs)
    (v1fin : V1.ProvisionalProposal → (Psbt → Except String Psbt) → Option Nat →
      Option Nat → Except ReplyableError V1.PayjoinProposal)
    (p1 : UncheckedProposal) (p2 : MaybeInputsOwned) (p3 : MaybeInputsSeen)
    (p4 : OutputsUnknown) (p5 : ProvisionalProposal) (t : Nat)
    (mfr : Option Nat) (cb : Psbt → Except String Bool)
    (orc1 : Script → Except String Bool) (orc2 : List Nat → Except String Bool)
    (orc3 : Script → Except String Bool) (wps : Psbt → Except String Psbt)
    (mefr : Option Nat) :
    WithContext.extract_req st now relay =
      .error (.Session (.Expired st.context.expiry)) ∧
    isOkE (UncheckedProposal.check_broadcast_suitability v1broadcast
        { p1 with context := { p1.context with expiry := t } } mfr cb) =
      isOkE (UncheckedProposal.check_broadcast_suitability v1broadcast p1 mfr cb) ∧
    isOkE (MaybeInputsOwned.check_inputs_not_owned v1owned
        { p2 with context := { p2.context with expiry := t } } orc1) =
      isOkE (MaybeInputsOwned.check_inputs_not_owned v1owned p2 orc1) ∧
    isOkE (MaybeInputsSeen.check_no_inputs_seen_before v1seen
        { p3 with context := { p3.context with expiry := t } } orc2) =
      isOkE (MaybeInputsSeen.check_no_inputs_seen_before v1seen p3 orc2) ∧
    isOkE (OutputsUnknown.identify_receiver_outputs v1outputs
        { p4 with context := { p4.context with expiry := t } } orc3) =
      isOkE (OutputsUnknown.identify_receiver_outputs v1outputs p4 orc3) ∧
    isOkE (ProvisionalProposal.finalize_proposal v1fin
        { p5 with context := { p5.context with expiry := t } } wps mfr mefr) =
      isOkE (ProvisionalProposal.finalize_proposal v1fin p5 wps mfr mefr) := by
  refine ⟨?_, ?_, ?_, ?_, ?_, ?_⟩
  · unfold WithContext.extract_req
    rw [if_pos hexp]
  · simp [UncheckedProposal.check_broadcast_suitability, isOkE_map]
  · simp [MaybeInputsOwned.check_inputs_not_owned, isOkE_map]
  · simp [MaybeInputsSeen.check_no_inputs_seen_before, isOkE_map]
  · simp [OutputsUnknown.identify_receiver_outputs, isOkE_map]
  · simp [ProvisionalProposal.finalize_proposal, isOkE_map]

def v1OwnedTrivial : V1.MaybeInputsOwned → (Script → Except String Bool) →
    Except ReplyableError V1.MaybeInputsSeen :=
  fun x _ => .ok ⟨x.psbt, x.params⟩

def v1SeenTrivial : V1.MaybeInputsSeen → (List Nat → Except String Bool) →
    Except ReplyableError V1.OutputsUnknown :=
  fun x _ => .ok ⟨x.psbt, x.params⟩

def v1OutputsTrivial : V1.OutputsUnknown → (Script → Except String Bool) →
    Except ReplyableError V1.WantsOutputs :=
  fun x _ => .ok ⟨x.psbt, x.params⟩

def v1FinTrivial : V1.ProvisionalProposal → (Psbt → Except String Psbt) → Option Nat →
    Option Nat → Except ReplyableError V1.PayjoinProposal :=
  fun x _ _ _ => .ok ⟨x.psbt⟩

/-- Witness for C2 (amended), instantiated with an expired concrete session
(`expiry = 1`, `now = 2`) and concrete guards and oracles. -/
theorem C2_expiry_amended_witness :
    WithContext.extract_req ⟨expiredCtx⟩ 2 relay0 =
      .error (.Session (.Expired (SessionContext.expiry (WithContext.context ⟨expiredCtx⟩)))) ∧
    isOkE (UncheckedProposal.check_broadcast_suitability V1.check_broadcast_suitability
        { v1 := ⟨psbt0, params0⟩, context := { ctx0 with expiry := 7 } } none
        (fun _ => .ok true)) =
      isOkE (UncheckedProposal.check_broadcast_suitability V1.check_broadcast_suitability
        { v1 := ⟨psbt0, params0⟩, context := ctx0 } none (fun _ => .ok true)) ∧
    isOkE (MaybeInputsOwned.check_inputs_not_owned v1OwnedTrivial
        { v1 := ⟨psbt0, params0⟩, context := { ctx0 with expiry := 7 } }
        (fun _ => .ok false)) =
      isOkE (MaybeInputsOwned.check_inputs_not_owned v1OwnedTrivial
        { v1 := ⟨psbt0, params0⟩, context := ctx0 } (fun _ => .ok false)) ∧
    isOkE (MaybeInputsSeen.check_no_inputs_seen_before v1SeenTrivial
        { v1 := ⟨psbt0, params0⟩, context := { ctx0 with expiry := 7 } }
        (fun _ => .ok false)) =
      isOkE (MaybeInputsSeen.check_no_inputs_seen_before v1SeenTrivial
        { v1 := ⟨psbt0, params0⟩, context := ctx0 } (fun _ => .ok false)) ∧
    isOkE (OutputsUnknown.identify_receiver_outputs v1OutputsTrivial
        { inner := ⟨psbt0, params0⟩, context := { ctx0 with expiry := 7 } }
        (fun _ => .ok true)) =
      isOkE (OutputsUnknown.identify_receiver_outputs v1OutputsTrivial
        { inner := ⟨psbt0, params0⟩, context := ctx0 } (fun _ => .ok true)) ∧
    isOkE (ProvisionalProposal.finalize_proposal v1FinTrivial
        { v1 := ⟨psbt0, params0⟩, context := { ctx0 with expiry := 7 } }
        (fun p => .ok p) none none) =
      isOkE (ProvisionalProposal.finalize_proposal v1FinTrivial
        { v1 := ⟨psbt0, params0⟩, context := ctx0 } (fun p => .ok p) none none) :=
  C2_expiry_amended ⟨expiredCtx⟩ 2 relay0 (by decide)
    V1.check_broadcast_suitability v1OwnedTrivial v1SeenTrivial v1OutputsTrivial
    v1FinTrivial
    { v1 := ⟨psbt0, params0⟩, context := ctx0 }
    { v1 := ⟨psbt0, params0⟩, context := ctx0 }
    { v1 := ⟨psbt0, params0⟩, context := ctx0 }
    { inner := ⟨psbt0, params0⟩, context := ctx0 }
    { v1 := ⟨psbt0, params0⟩, context := ctx0 }
    7 none (fun _ => .ok true) (fun _ => .ok false) (fun _ => .ok false)
    (fun _ => .ok true) (fun p => .ok p) none

/-! ## C9 — JSON serialization round trip -/

theorem jsonBytesAux_map (l : List Nat) : jsonBytesAux (l.map .num) = some l := by
  induction l with
  | nil => rfl
  | cons n rest ih => simp [jsonBytesAux, ih]

theorem jsonBytes_bytesJson (l : List Nat) : jsonBytes (bytesJson l) = some l := by
  simp [jsonBytes, bytesJson, jsonBytesAux_map]

theorem splitSchemeChars_append (sch rest : List Char) (h : ':' ∉ sch) :
    splitSchemeChars (sch ++ ':' :: '/' :: '/' :: rest) = some (sch, rest) := by
  induction sch with
  | nil => simp [splitSchemeChars]
  | cons c tail ih =>
      have hc : ¬ c = ':' := fun e => h (e ▸ List.mem_cons_self c tail)
      have hr := ih (fun m => h (List.mem_cons_of_mem c m))
      simp [splitSchemeChars, hc, hr]

theorem authority_split (auth path : List Char) (h : '/' ∉ auth)
    (hp : path = [] ∨ path.head? = some '/') :
    (auth ++ path).takeWhile notSlash = auth ∧
    (auth ++ path).dropWhile notSlash = path := by
  induction auth with
  | nil =>
      rcases hp with h0 | h0
      · subst h0; exact ⟨rfl, rfl⟩
      · cases path with
        | nil => exact ⟨rfl, rfl⟩
        | cons c rest =>
            have hc : c = '/' := by simpa using h0
            subst hc
            have hfalse : notSlash '/' = false := rfl
            simp [List.takeWhile_cons, List.dropWhile_cons, hfalse]
  | cons a tl ih =>
      have ha : notSlash a = true := by
        have : ¬ a = '/' := fun e => h (e ▸ List.mem_cons_self a tl)
        simp [notSlash, this]
      have hr := ih (fun m => h (List.mem_cons_of_mem a m))
      simp [List.takeWhile_cons, List.dropWhile_cons, ha, hr.1, hr.2]

theorem urlParse_render (u : Url) (h : u.Wf) : urlParse u.render = some u := by
  obtain ⟨h1, h2, h3⟩ := h
  have hsplit : splitSchemeChars u.render = some (u.scheme, u.authority ++ u.path) := by
    have hform : u.render = u.scheme ++ ':' :: '/' :: '/' :: (u.authority ++ u.path) := by
      simp [Url.render]
    rw [hform]
    exact splitSchemeChars_append u.scheme (u.authority ++ u.path) h1
  have hsp := authority_split u.authority u.path h2 h3
  unfold urlParse
  simp only [hsplit, hsp.1, hsp.2]

theorem deserialize_serialize_context (ctx : SessionContext)
    (hdir : ctx.directory.Wf)
    (hsub : ∀ u, ctx.subdirectory = some u → u.Wf) :
    deserializeContext (serializeContext ctx) = some ctx := by
  obtain ⟨⟨addr⟩, dir, sub, ⟨okeys⟩, exp, ⟨⟨sk⟩, ⟨pk⟩⟩, e⟩ := ctx
  simp only at hdir hsub
  cases sub with
  | none =>
      cases e <;>
        simp [serializeContext, deserializeContext, Address.fromStr,
              Address.assumeChecked, jsonOptUrl, jsonOptKey, jsonBytes, bytesJson,
              jsonBytesAux_map, Url.renderString, urlParse_render _ hdir]
  | some u =>
      have hu : u.Wf := hsub u rfl
      cases e <;>
        simp [serializeContext, deserializeContext, Address.fromStr,
              Address.assumeChecked, jsonOptUrl, jsonOptKey, jsonBytes, bytesJson,
              jsonBytesAux_map, Url.renderString, urlParse_render _ hdir,
              urlParse_render _ hu]

/-- C9: serializing a `Receiver<WithContext>` and deserializing the result
yields the original value.  The two well-formedness hypotheses record the
invariants every value of the `url` crate's canonical `Url` type carries. -/
theorem C9_receiver_roundtrip (st : WithContext)
    (hdir : st.context.directory.Wf)
    (hsub : ∀ u, st.context.subdirectory = some u → u.Wf) :
    deserializeReceiver (serializeReceiver st) = some st := by
  obtain ⟨ctx⟩ := st
  simp only at hdir hsub
  simp [serializeReceiver, deserializeReceiver,
        deserialize_serialize_context ctx hdir hsub]

/-- Witness for C9 at the concrete session `st0`. -/
theorem C9_receiver_roundtrip_witness :
    Url.Wf st0.context.directory ∧
    deserializeReceiver (serializeReceiver st0) = some st0 :=
  ⟨by decide,
   C9_receiver_roundtrip st0 (by decide) (fun u hu => Option.noConfusion hu)⟩

end Payjoin
